import Mathlib

/-!
Verification development for the EchoDB auto-mirror worker.

Shallow embedding of the relevant parts of
`scripts/circuit_breaker.py`, `scripts/auto-mirror-worker.py` and
`scripts/leader_election.py`.  Pure control flow is translated into
executable Lean functions; Python exceptions are modelled explicitly
(`PyResult`), external effects (subprocess results, Redis calls, row-count
queries) are passed in as parameters, and the side effects that matter to
the specification (replicator invocations, sleeps, counter increments,
`set_error` calls) are collected in explicit trace structures.
-/

namespace EchoDB

/-- Model of Python's substring test `pat in s` on strings. -/
def strContains (s pat : String) : Bool :=
  decide (pat.data <:+: s.data)

/-- Model of Python's `str.strip()`: remove leading and trailing
whitespace. -/
def pyStrip (s : String) : String :=
  ⟨((s.data.dropWhile Char.isWhitespace).reverse.dropWhile
      Char.isWhitespace).reverse⟩

/-- Result of a Python function call: either a normal return value or an
uncaught exception carrying its message. -/
inductive PyResult (α : Type) where
  | ret (a : α)
  | exc (msg : String)
deriving DecidableEq

/-! ## Circuit breaker (`scripts/circuit_breaker.py`) -/

/-- `CircuitState` enum from `circuit_breaker.py` (`closed`, `open`,
`half_open`); `open` is a Lean keyword, hence `opened`. -/
inductive CircuitState where
  | closed
  | opened
  | half_open
deriving DecidableEq

/-- `CircuitBreakerConfig`: thresholds and timeout.  The timeout and
timestamps are seconds; wall-clock instants are modelled as integers. -/
structure CircuitBreakerConfig where
  failure_threshold : Nat
  success_threshold : Nat
  timeout : Int
deriving DecidableEq

/-- Mutable state of a `CircuitBreaker` instance: `_state`,
`_failure_count`, `_success_count`, `_last_failure_time`. -/
structure CircuitBreaker where
  state : CircuitState
  failure_count : Nat
  success_count : Nat
  last_failure_time : Option Int
deriving DecidableEq

/-- Breaker state at construction (`__init__`). -/
def CircuitBreaker.init : CircuitBreaker :=
  { state := .closed, failure_count := 0, success_count := 0,
    last_failure_time := none }

/-- `CircuitBreaker._allow_request`, lines 131-161: returns whether the
request is admitted, together with the updated breaker state.  In the
`OPEN` state the transition to `HALF_OPEN` happens when
`now - last_failure_time >= timeout` and resets `_success_count`.
The `none` branch under `OPEN` is unreachable from `init` because `OPEN`
is only ever entered by `_on_failure`, which records the failure time. -/
def _allow_request (cfg : CircuitBreakerConfig) (cb : CircuitBreaker)
    (now : Int) : Bool × CircuitBreaker :=
  match cb.state with
  | .closed => (true, cb)
  | .opened =>
    match cb.last_failure_time with
    | some t =>
      if cfg.timeout ≤ now - t then
        (true, { cb with state := .half_open, success_count := 0 })
      else
        (false, cb)
    | none => (false, cb)
  | .half_open => (true, cb)

/-- `CircuitBreaker._on_success`, lines 163-184. -/
def _on_success (cfg : CircuitBreakerConfig) (cb : CircuitBreaker) :
    CircuitBreaker :=
  match cb.state with
  | .half_open =>
    let sc := cb.success_count + 1
    if cfg.success_threshold ≤ sc then
      { cb with state := .closed, success_count := sc, failure_count := 0 }
    else
      { cb with success_count := sc }
  | .closed => { cb with failure_count := 0 }
  | .opened => cb

/-- `CircuitBreaker._on_failure`, lines 186-214: increment
`_failure_count`, record the failure time, open the circuit when the
threshold is reached, and fall back from `HALF_OPEN` to `OPEN` on any
failure (the second `if` inspects the already-updated state, exactly as
the source does). -/
def _on_failure (cfg : CircuitBreakerConfig) (cb : CircuitBreaker)
    (now : Int) : CircuitBreaker :=
  let fc := cb.failure_count + 1
  let cb1 : CircuitBreaker :=
    { cb with failure_count := fc, last_failure_time := some now }
  let cb2 : CircuitBreaker :=
    if cfg.failure_threshold ≤ fc then { cb1 with state := .opened } else cb1
  if cb2.state = .half_open then { cb2 with state := .opened } else cb2

/-- The three internal operations a `CircuitBreaker.call` can perform on
the breaker state, as one step alphabet. -/
inductive BreakerOp where
  | allowReq (now : Int)
  | onSuccess
  | onFailure (now : Int)

/-- One internal transition of the breaker state. -/
def breakerStep (cfg : CircuitBreakerConfig) (cb : CircuitBreaker) :
    BreakerOp → CircuitBreaker
  | .allowReq now => (_allow_request cfg cb now).2
  | .onSuccess => _on_success cfg cb
  | .onFailure now => _on_failure cfg cb now

/-! ## Mirror executor (`scripts/auto-mirror-worker.py`, lines 429-607)

The replicator is invoked by shelling out to `psql`; one invocation is
modelled by its observable outcome (`AttemptResult`).  The worker-state
side effects of one executor call (`increment_mirrors_created`,
`increment_mirrors_failed`, `set_error`), the subprocess invocations and
the backoff sleeps are collected in an `ExecTrace`. -/

/-- Retry configuration from `Config` (`MAX_RETRIES`, `RETRY_DELAY`,
`RETRY_BACKOFF`).  `RETRY_BACKOFF` is a float multiplier in the source;
delays are modelled as rationals. -/
structure RetryConfig where
  MAX_RETRIES : Nat
  RETRY_DELAY : ℚ
  RETRY_BACKOFF : ℚ
deriving DecidableEq

/-- Outcome of one `subprocess.run` invocation of the replicator:
completion with an exit code and captured stderr, or expiry of the 60 s
per-attempt timeout (`subprocess.TimeoutExpired`). -/
inductive AttemptResult where
  | completed (returncode : Int) (stderr : String)
  | timedOut
deriving DecidableEq

/-- Observable side effects of one top-level executor invocation:
number of replicator (subprocess) calls, backoff sleeps performed,
increments of the `mirrors_created` and `mirrors_failed` counters, and
the sequence of `state.set_error` calls (`none` models
`set_error(None)`). -/
structure ExecTrace where
  calls : Nat := 0
  sleeps : List ℚ := []
  created_inc : Nat := 0
  failed_inc : Nat := 0
  errorSets : List (Option String) := []
deriving DecidableEq

/-- Sequential composition of traces. -/
def traceAppend (a b : ExecTrace) : ExecTrace :=
  { calls := a.calls + b.calls,
    sleeps := a.sleeps ++ b.sleeps,
    created_inc := a.created_inc + b.created_inc,
    failed_inc := a.failed_inc + b.failed_inc,
    errorSets := a.errorSets ++ b.errorSets }

/-- How one iteration of the executor's `while` body ends: a `return`,
an exception propagating out of the `try` statement (both `except`
clauses re-raise), or falling through to the code after the `try`
(`retry_count += 1`, sleep, backoff). -/
inductive BodyOutcome where
  | ret (b : Bool)
  | raised (msg : String)
  | fallthrough
deriving DecidableEq

/-- The `try` statement of `_create_mirror_internal`, lines 442-489.
`returncode == 0` returns `True` after `mirrors_created` is incremented
and `set_error(None)`; a non-zero exit whose stderr contains
`"already exists"` returns `True` with no counter change; any other
non-zero exit raises `Mirror creation failed: <stderr stripped>`; a
timeout raises `Timeout creating mirror for <table>`.  The
`except Exception` clause re-raises, so no branch falls through. -/
def create_try_body (table : String) (r : AttemptResult) :
    BodyOutcome × ExecTrace :=
  match r with
  | .completed rc stderr =>
    if rc = 0 then
      (.ret true, { calls := 1, created_inc := 1, errorSets := [none] })
    else if strContains stderr "already exists" then
      (.ret true, { calls := 1 })
    else
      (.raised ("Mirror creation failed: " ++ pyStrip stderr), { calls := 1 })
  | .timedOut =>
    (.raised ("Timeout creating mirror for " ++ table), { calls := 1 })

/-- The `try` statement of `_drop_mirror_internal`, lines 534-582.
Exit 0 returns `True` after `set_error(None)`; a non-zero exit whose
stderr contains `"does not exist"` or `"must acquire"` returns `True`;
any other non-zero exit raises `Mirror drop failed: <stderr stripped>`;
a timeout raises `Timeout dropping mirror for <table>`. -/
def drop_try_body (table : String) (r : AttemptResult) :
    BodyOutcome × ExecTrace :=
  match r with
  | .completed rc stderr =>
    if rc = 0 then
      (.ret true, { calls := 1, errorSets := [none] })
    else if strContains stderr "does not exist" ||
        strContains stderr "must acquire" then
      (.ret true, { calls := 1 })
    else
      (.raised ("Mirror drop failed: " ++ pyStrip stderr), { calls := 1 })
  | .timedOut =>
    (.raised ("Timeout dropping mirror for " ++ table), { calls := 1 })

/-- The `while retry_count <= MAX_RETRIES` loop shared by both internal
executor functions, parametrised by the body of the `try` statement.
`k` is `retry_count`, `fuel = MAX_RETRIES + 1 - k` the number of
iterations the guard still admits; `attempts k` is the outcome the k-th
replicator invocation would have.  When the guard fails the loop exits
to the code after it (given by `exhausted`).  On fall-through the code
of lines 492-496 runs: `retry_count += 1`, and if the new count still
satisfies the guard, sleep `delay` seconds and multiply `delay` by
`RETRY_BACKOFF`. -/
def retry_loop (cfg : RetryConfig) (body : AttemptResult → BodyOutcome × ExecTrace)
    (exhausted : PyResult Bool × ExecTrace) (attempts : Nat → AttemptResult)
    (k : Nat) (delay : ℚ) : Nat → PyResult Bool × ExecTrace
  | 0 => exhausted
  | fuel + 1 =>
    match body (attempts k) with
    | (.ret b, tr) => (.ret b, tr)
    | (.raised m, tr) => (.exc m, tr)
    | (.fallthrough, tr) =>
      let tr1 := if 1 ≤ fuel then { tr with sleeps := tr.sleeps ++ [delay] }
                 else tr
      let rest := retry_loop cfg body exhausted attempts (k + 1)
        (delay * cfg.RETRY_BACKOFF) fuel
      (rest.1, traceAppend tr1 rest.2)

/-- `_create_mirror_internal`, lines 429-501: the retry loop starting at
`retry_count = 0`, `delay = RETRY_DELAY`; if the loop guard is exhausted
(lines 498-501) `mirrors_failed` is incremented, `set_error` records the
failure and `False` is returned. -/
def _create_mirror_internal (cfg : RetryConfig) (table : String)
    (attempts : Nat → AttemptResult) : PyResult Bool × ExecTrace :=
  retry_loop cfg (create_try_body table)
    (.ret false,
      { failed_inc := 1,
        errorSets := [some ("Failed to create mirror after " ++
          toString (cfg.MAX_RETRIES + 1) ++ " attempts")] })
    attempts 0 cfg.RETRY_DELAY (cfg.MAX_RETRIES + 1)

/-- `_drop_mirror_internal`, lines 523-593: as for create, but loop
exhaustion (lines 591-593) only records the error and returns `False`;
no counter is incremented. -/
def _drop_mirror_internal (cfg : RetryConfig) (table : String)
    (attempts : Nat → AttemptResult) : PyResult Bool × ExecTrace :=
  retry_loop cfg (drop_try_body table)
    (.ret false,
      { errorSets := [some ("Failed to drop mirror after " ++
          toString (cfg.MAX_RETRIES + 1) ++ " attempts")] })
    attempts 0 cfg.RETRY_DELAY (cfg.MAX_RETRIES + 1)

/-- `create_peerdb_mirror_with_retry`, lines 504-515, combined with
`CircuitBreaker.call` (circuit_breaker.py lines 98-129): the breaker
first decides admission; on rejection `CircuitBreakerOpenError` is
raised by `call` and caught by the wrapper, which records the error and
returns `False`.  On admission the internal function runs; a normal
return feeds `_on_success`, an exception feeds `_on_failure` and is
re-raised by `call` - and the wrapper catches only
`CircuitBreakerOpenError`, so it propagates out. -/
def create_peerdb_mirror_with_retry (rcfg : RetryConfig)
    (bcfg : CircuitBreakerConfig) (cb : CircuitBreaker) (now : Int)
    (table : String) (attempts : Nat → AttemptResult) :
    PyResult Bool × ExecTrace × CircuitBreaker :=
  let ar := _allow_request bcfg cb now
  if ar.1 then
    match _create_mirror_internal rcfg table attempts with
    | (.ret b, tr) => (.ret b, tr, _on_success bcfg ar.2)
    | (.exc m, tr) => (.exc m, tr, _on_failure bcfg ar.2 now)
  else
    (.ret false,
      { errorSets := [some "Circuit breaker open - PeerDB API unavailable"] },
      ar.2)

/-- `drop_peerdb_mirror_with_retry`, lines 596-607: identical structure,
except that on `CircuitBreakerOpenError` the wrapper returns `True`
("Not critical if mirror drop fails"). -/
def drop_peerdb_mirror_with_retry (rcfg : RetryConfig)
    (bcfg : CircuitBreakerConfig) (cb : CircuitBreaker) (now : Int)
    (table : String) (attempts : Nat → AttemptResult) :
    PyResult Bool × ExecTrace × CircuitBreaker :=
  let ar := _allow_request bcfg cb now
  if ar.1 then
    match _drop_mirror_internal rcfg table attempts with
    | (.ret b, tr) => (.ret b, tr, _on_success bcfg ar.2)
    | (.exc m, tr) => (.exc m, tr, _on_failure bcfg ar.2 now)
  else
    (.ret true,
      { errorSets := [some "Circuit breaker open - PeerDB API unavailable"] },
      ar.2)

/-! ## Notification routing (`listen_for_tables`, lines 941-1010) -/

/-- What the notification-processing body does with one decoded event. -/
inductive Action where
  | skippedSchema
  | skippedExcluded
  | skippedDuplicate
  | createCalled
  | dropCalled
  | unknownChannel
deriving DecidableEq

/-- The filter-and-dispatch logic of the notification loop body, in
source order: the schema filter (lines 950-954) applies to both
channels; the `excluded_tables` filter (lines 956-962) applies only
when `notify.channel == "peerdb_create_mirror"`; then the duplicate
check (lines 967-975); then dispatch on the channel (lines 981-1007).
`isDup` is the result `is_duplicate_notification` would give for the
event's dedup key. -/
def routeNotification (sync_schemas excluded_tables : List String)
    (channel schema table : String) (isDup : Bool) : Action :=
  if schema ∉ sync_schemas then .skippedSchema
  else if channel = "peerdb_create_mirror" ∧ table ∈ excluded_tables then
    .skippedExcluded
  else if isDup then .skippedDuplicate
  else if channel = "peerdb_create_mirror" then .createCalled
  else if channel = "peerdb_drop_mirror" then .dropCalled
  else .unknownChannel

/-- Whether an action reaches the mirror executor. -/
def Action.isExecutorCall : Action → Bool
  | .createCalled => true
  | .dropCalled => true
  | _ => false

/-! ## Duplicate detection (`is_duplicate_notification`, lines 645-659)

The Redis dependency is modelled by what the presence check would
observe: `none` when no client could be created (`get_redis_client`
returned `None`), `some (.error e)` when `exists` raises, and
`some (.ok n)` when `exists` returns the integer `n`. -/

/-- `is_duplicate_notification`: with no client it returns `False`
("No Redis, can't check for duplicates"); a raising `exists` call is
caught and yields `False`; otherwise the result is `exists(...) == 1`. -/
def is_duplicate_notification (client : Option (Except String Nat)) : Bool :=
  match client with
  | none => false
  | some (.error _) => false
  | some (.ok n) => n == 1

/-! ## Consistency verifier (lines 702-799) -/

/-- Observable effects of `verify_mirror_consistency`: number of
count-comparison attempts performed, the retry sleeps (seconds), and
the `set_error` calls made. -/
structure VerifyTrace where
  comparisons : Nat := 0
  sleeps : List Nat := []
  errorSets : List String := []
deriving DecidableEq

/-- The `for attempt in range(max_attempts)` loop of
`verify_mirror_consistency`, lines 710-747.  `a` is `attempt`, `rem`
the number of iterations `range` still yields; `counts a` is the pair
`(pg_count, ch_count)` the two count helpers return on the a-th
attempt (both helpers catch their own exceptions, so the `except`
branch of the loop is not reachable through them).  On a mismatch
before the last attempt the loop sleeps 10 s and retries; on the last
attempt it records `Data consistency issue: <schema>.<table>` via
`set_error` and returns `False`.  The `return True` after the loop
(line 749) corresponds to `rem = 0`. -/
def verify_loop (schema table : String) (counts : Nat → Nat × Nat)
    (a : Nat) : Nat → Bool × VerifyTrace
  | 0 => (true, {})
  | rem + 1 =>
    if (counts a).1 = (counts a).2 then
      (true, { comparisons := 1 })
    else if 1 ≤ rem then
      let rest := verify_loop schema table counts (a + 1) rem
      (rest.1,
        { comparisons := 1 + rest.2.comparisons,
          sleeps := 10 :: rest.2.sleeps,
          errorSets := rest.2.errorSets })
    else
      (false,
        { comparisons := 1,
          errorSets := ["Data consistency issue: " ++ schema ++ "." ++ table] })

/-- `verify_mirror_consistency`, lines 702-749, with
`max_attempts = 3`. -/
def verify_mirror_consistency (schema table : String)
    (counts : Nat → Nat × Nat) : Bool × VerifyTrace :=
  verify_loop schema table counts 0 3

/-- `_get_postgres_count`, lines 752-770: the query either raises
(connection or query error, caught: count 0), returns no row
(`fetchone()` falsy: count 0), or returns a row with the count. -/
def _get_postgres_count (q : Except String (Option Nat)) : Nat :=
  match q with
  | .ok (some n) => n
  | .ok none => 0
  | .error _ => 0

/-- `_get_clickhouse_count`, lines 773-799: when the client cannot be
created (`clientOk = false`, outer `except`: count 0), otherwise the
bare table name is queried first and `postgres.<table>` second; a
query that raises or returns no rows falls through to the next name,
and if neither yields a row the count is 0. -/
def _get_clickhouse_count (clientOk : Bool)
    (q1 q2 : Except String (Option Nat)) : Nat :=
  if clientOk then
    match q1 with
    | .ok (some n) => n
    | _ =>
      match q2 with
      | .ok (some n) => n
      | _ => 0
  else 0

/-- `verify_mirror_consistency` with its two count helpers plugged in:
on the a-th attempt the Postgres query behaves as `pgq a` and the
ClickHouse client/queries as `chClientOk a`, `chq1 a`, `chq2 a`. -/
def verify_with_queries (schema table : String)
    (pgq : Nat → Except String (Option Nat)) (chClientOk : Nat → Bool)
    (chq1 chq2 : Nat → Except String (Option Nat)) : Bool × VerifyTrace :=
  verify_mirror_consistency schema table
    (fun a => (_get_postgres_count (pgq a),
      _get_clickhouse_count (chClientOk a) (chq1 a) (chq2 a)))

/-! ## Leader election (`scripts/leader_election.py`, lines 125-169) -/

/-- Redis `SET key value NX EX ttl` on the (non-expired) lock key:
succeeds and writes only when the key is absent. -/
def redis_set_nx (store : Option String) (v : String) :
    Bool × Option String :=
  match store with
  | none => (true, some v)
  | some old => (false, some old)

/-- Result of `acquire_leadership`: the returned boolean, the local
`is_leader` flag after the call, and the lock key's value in the
store after the call. -/
structure AcquireResult where
  returned : Bool
  is_leader : Bool
  store : Option String
deriving DecidableEq

/-- `LeaderElection.acquire_leadership`, lines 125-169, on the
non-raising path: a `SET ... NX EX` that succeeds sets
`is_leader = True` and returns `True`; a failed set (key already
present, whoever holds it) sets `is_leader = False` and returns
`False`. -/
def acquire_leadership (store : Option String) (worker_id : String) :
    AcquireResult :=
  let r := redis_set_nx store worker_id
  if r.1 then
    { returned := true, is_leader := true, store := r.2 }
  else
    { returned := false, is_leader := false, store := r.2 }

/-! ## Concrete configurations (defaults from `Config`, lines 94-142) -/

/-- Default retry configuration: `MAX_RETRIES = 5`, `RETRY_DELAY = 5`,
`RETRY_BACKOFF = 2.0`. -/
def defaultRetryConfig : RetryConfig :=
  { MAX_RETRIES := 5, RETRY_DELAY := 5, RETRY_BACKOFF := 2 }

/-- The `peerdb_api` breaker configuration: `failure_threshold = 5`,
`success_threshold = 2`, `timeout = 60`. -/
def peerdbBreakerConfig : CircuitBreakerConfig :=
  { failure_threshold := 5, success_threshold := 2, timeout := 60 }

/-- A replicator that fails transiently on every attempt: non-zero exit
with a stderr carrying no idempotent-conflict substring. -/
def transientAttempts : Nat → AttemptResult :=
  fun _ => .completed 1 "connection refused"

/-- A breaker that has just opened: threshold-many failures, the last
one at time 0. -/
def openBreaker : CircuitBreaker :=
  { state := .opened, failure_count := 5, success_count := 0,
    last_failure_time := some 0 }

/-! ## Helper lemmas -/

/-- Unfolding equation for one admitted iteration of the retry loop. -/
theorem retry_loop_step (cfg : RetryConfig)
    (body : AttemptResult → BodyOutcome × ExecTrace)
    (exh : PyResult Bool × ExecTrace) (attempts : Nat → AttemptResult)
    (k : Nat) (delay : ℚ) (fuel : Nat) :
    retry_loop cfg body exh attempts k delay (fuel + 1) =
      match body (attempts k) with
      | (.ret b, tr) => (.ret b, tr)
      | (.raised m, tr) => (.exc m, tr)
      | (.fallthrough, tr) =>
        let tr1 := if 1 ≤ fuel then { tr with sleeps := tr.sleeps ++ [delay] }
                   else tr
        let rest := retry_loop cfg body exh attempts (k + 1)
          (delay * cfg.RETRY_BACKOFF) fuel
        (rest.1, traceAppend tr1 rest.2) := rfl

/-- Every path of the create `try` body returns or raises: none reaches
the backoff code after the `try` statement, and the paths that return
never return `False`.  Each iteration makes exactly one replicator
call, sleeps nowhere and never increments `mirrors_failed`. -/
theorem create_try_body_cases (table : String) (r : AttemptResult) :
    (create_try_body table r).1 ≠ BodyOutcome.fallthrough ∧
    (create_try_body table r).1 ≠ BodyOutcome.ret false ∧
    (create_try_body table r).2.calls = 1 ∧
    (create_try_body table r).2.sleeps = [] ∧
    (create_try_body table r).2.failed_inc = 0 := by
  cases r with
  | completed rc s =>
    dsimp only [create_try_body]
    split_ifs <;> simp
  | timedOut => simp [create_try_body]

/-- The same shape facts for the drop `try` body. -/
theorem drop_try_body_cases (table : String) (r : AttemptResult) :
    (drop_try_body table r).1 ≠ BodyOutcome.fallthrough ∧
    (drop_try_body table r).1 ≠ BodyOutcome.ret false ∧
    (drop_try_body table r).2.calls = 1 ∧
    (drop_try_body table r).2.sleeps = [] ∧
    (drop_try_body table r).2.failed_inc = 0 := by
  cases r with
  | completed rc s =>
    dsimp only [drop_try_body]
    split_ifs <;> simp
  | timedOut => simp [drop_try_body]

/-- When the loop body cannot fall through, the loop performs exactly
its first iteration. -/
theorem retry_loop_terminal (cfg : RetryConfig)
    (body : AttemptResult → BodyOutcome × ExecTrace)
    (exh : PyResult Bool × ExecTrace) (attempts : Nat → AttemptResult)
    (k : Nat) (delay : ℚ) (fuel : Nat)
    (hb : (body (attempts k)).1 ≠ BodyOutcome.fallthrough) :
    retry_loop cfg body exh attempts k delay (fuel + 1) =
      ((match (body (attempts k)).1 with
        | .ret b => PyResult.ret b
        | .raised m => PyResult.exc m
        | .fallthrough => PyResult.ret false),
       (body (attempts k)).2) := by
  rw [retry_loop_step]
  rcases h : body (attempts k) with ⟨out, tr⟩
  cases out with
  | ret b => simp [h]
  | raised m => simp [h]
  | fallthrough => rw [h] at hb; simp at hb

/-- A failure never leaves the breaker in `HALF_OPEN`: the trailing
check of `_on_failure` sends `HALF_OPEN` back to `OPEN`. -/
theorem on_failure_state_ne_half_open (cfg : CircuitBreakerConfig)
    (cb : CircuitBreaker) (now : Int) :
    (_on_failure cfg cb now).state ≠ CircuitState.half_open := by
  dsimp only [_on_failure]
  split_ifs with h1 h2 h3 <;> simp_all

/-- Unfolding equation for one iteration of the verifier loop. -/
theorem verify_loop_step (schema table : String) (counts : Nat → Nat × Nat)
    (a rem : Nat) :
    verify_loop schema table counts a (rem + 1) =
      (if (counts a).1 = (counts a).2 then (true, { comparisons := 1 })
       else if 1 ≤ rem then
         let rest := verify_loop schema table counts (a + 1) rem
         (rest.1,
           { comparisons := 1 + rest.2.comparisons,
             sleeps := 10 :: rest.2.sleeps,
             errorSets := rest.2.errorSets })
       else
         (false,
           { comparisons := 1,
             errorSets :=
               ["Data consistency issue: " ++ schema ++ "." ++ table] })) := rfl

/-- Full case analysis of the three-attempt verifier. -/
theorem verify_cases (schema table : String) (counts : Nat → Nat × Nat) :
    verify_mirror_consistency schema table counts =
      (if (counts 0).1 = (counts 0).2 then (true, { comparisons := 1 })
       else if (counts 1).1 = (counts 1).2 then
         (true, { comparisons := 2, sleeps := [10] })
       else if (counts 2).1 = (counts 2).2 then
         (true, { comparisons := 3, sleeps := [10, 10] })
       else
         (false,
           { comparisons := 3, sleeps := [10, 10],
             errorSets :=
               ["Data consistency issue: " ++ schema ++ "." ++ table] })) := by
  show verify_loop schema table counts 0 (2 + 1) = _
  rw [verify_loop_step]
  by_cases h0 : (counts 0).1 = (counts 0).2
  · rw [if_pos h0, if_pos h0]
  · rw [if_neg h0, if_neg h0, if_pos (by norm_num : (1:Nat) ≤ 2)]
    rw [show verify_loop schema table counts (0 + 1) 2 =
      verify_loop schema table counts 1 (1 + 1) from rfl, verify_loop_step]
    by_cases h1 : (counts 1).1 = (counts 1).2
    · rw [if_pos h1, if_pos h1]
      rfl
    · rw [if_neg h1, if_neg h1, if_pos (by norm_num : (1:Nat) ≤ 1)]
      rw [show verify_loop schema table counts (1 + 1) 1 =
        verify_loop schema table counts 2 (0 + 1) from rfl, verify_loop_step]
      by_cases h2 : (counts 2).1 = (counts 2).2
      · rw [if_pos h2, if_pos h2]
        rfl
      · rw [if_neg h2, if_neg h2, if_neg (by norm_num : ¬ (1:Nat) ≤ 0)]
        rfl

/-! ## Claim theorems -/

/-- C1: the claim states that a transient failure (non-zero exit without
an idempotent-conflict substring, or a timeout) is retried after a delay
of `RETRY_DELAY * RETRY_BACKOFF ^ k`, with at most `MAX_RETRIES + 1`
replicator calls per top-level invocation and `err` returned only after
all attempts have failed.  On the code this fails: because every failing
path of the `try` body raises and both `except` clauses re-raise, the
code after the `try` (`retry_count += 1`, the sleep and the backoff) is
unreachable, so with a closed breaker every top-level create or drop
makes exactly one replicator call, never sleeps, never returns `err`
from the transient path, and on a transient failure the exception
propagates out of the wrapper (only `CircuitBreakerOpenError` is
caught).  The last two conjuncts evaluate the code on the failing
input: a first attempt exiting non-zero with stderr
`connection refused`. -/
theorem create_and_drop_make_single_attempt_and_raise :
    (∀ attempts : Nat → AttemptResult,
      (create_peerdb_mirror_with_retry defaultRetryConfig peerdbBreakerConfig
          CircuitBreaker.init 0 "orders" attempts).2.1.calls = 1 ∧
      (create_peerdb_mirror_with_retry defaultRetryConfig peerdbBreakerConfig
          CircuitBreaker.init 0 "orders" attempts).2.1.sleeps = [] ∧
      (create_peerdb_mirror_with_retry defaultRetryConfig peerdbBreakerConfig
          CircuitBreaker.init 0 "orders" attempts).1 ≠ PyResult.ret false) ∧
    (∀ attempts : Nat → AttemptResult,
      (drop_peerdb_mirror_with_retry defaultRetryConfig peerdbBreakerConfig
          CircuitBreaker.init 0 "orders" attempts).2.1.calls = 1 ∧
      (drop_peerdb_mirror_with_retry defaultRetryConfig peerdbBreakerConfig
          CircuitBreaker.init 0 "orders" attempts).2.1.sleeps = [] ∧
      (drop_peerdb_mirror_with_retry defaultRetryConfig peerdbBreakerConfig
          CircuitBreaker.init 0 "orders" attempts).1 ≠ PyResult.ret false) ∧
    create_peerdb_mirror_with_retry defaultRetryConfig peerdbBreakerConfig
        CircuitBreaker.init 0 "orders" transientAttempts =
      (PyResult.exc "Mirror creation failed: connection refused",
       { calls := 1 },
       { state := .closed, failure_count := 1, success_count := 0,
         last_failure_time := some 0 }) ∧
    drop_peerdb_mirror_with_retry defaultRetryConfig peerdbBreakerConfig
        CircuitBreaker.init 0 "orders" transientAttempts =
      (PyResult.exc "Mirror drop failed: connection refused",
       { calls := 1 },
       { state := .closed, failure_count := 1, success_count := 0,
         last_failure_time := some 0 }) := by
  refine ⟨?_, ?_, by decide, by decide⟩
  · intro attempts
    have hw : create_peerdb_mirror_with_retry defaultRetryConfig
        peerdbBreakerConfig CircuitBreaker.init 0 "orders" attempts =
        (match _create_mirror_internal defaultRetryConfig "orders" attempts with
         | (.ret b, tr) =>
           (PyResult.ret b, tr, _on_success peerdbBreakerConfig CircuitBreaker.init)
         | (.exc m, tr) =>
           (PyResult.exc m, tr,
             _on_failure peerdbBreakerConfig CircuitBreaker.init 0)) := rfl
    have hint : _create_mirror_internal defaultRetryConfig "orders" attempts =
        ((match (create_try_body "orders" (attempts 0)).1 with
          | .ret b => PyResult.ret b
          | .raised m => PyResult.exc m
          | .fallthrough => PyResult.ret false),
         (create_try_body "orders" (attempts 0)).2) :=
      retry_loop_terminal _ _ _ _ _ _ _
        (create_try_body_cases "orders" (attempts 0)).1
    obtain ⟨hnf, hnr, hc, hs, -⟩ := create_try_body_cases "orders" (attempts 0)
    rw [hw, hint]
    rcases hb : (create_try_body "orders" (attempts 0)).1 with b | m
    · cases b
      · exact absurd hb hnr
      · simp [hb, hc, hs]
    · simp [hb, hc, hs]
    · exact absurd hb hnf
  · intro attempts
    have hw : drop_peerdb_mirror_with_retry defaultRetryConfig
        peerdbBreakerConfig CircuitBreaker.init 0 "orders" attempts =
        (match _drop_mirror_internal defaultRetryConfig "orders" attempts with
         | (.ret b, tr) =>
           (PyResult.ret b, tr, _on_success peerdbBreakerConfig CircuitBreaker.init)
         | (.exc m, tr) =>
           (PyResult.exc m, tr,
             _on_failure peerdbBreakerConfig CircuitBreaker.init 0)) := rfl
    have hint : _drop_mirror_internal defaultRetryConfig "orders" attempts =
        ((match (drop_try_body "orders" (attempts 0)).1 with
          | .ret b => PyResult.ret b
          | .raised m => PyResult.exc m
          | .fallthrough => PyResult.ret false),
         (drop_try_body "orders" (attempts 0)).2) :=
      retry_loop_terminal _ _ _ _ _ _ _
        (drop_try_body_cases "orders" (attempts 0)).1
    obtain ⟨hnf, hnr, hc, hs, -⟩ := drop_try_body_cases "orders" (attempts 0)
    rw [hw, hint]
    rcases hb : (drop_try_body "orders" (attempts 0)).1 with b | m
    · cases b
      · exact absurd hb hnr
      · simp [hb, hc, hs]
    · simp [hb, hc, hs]
    · exact absurd hb hnf

/-- C1 witness: the single-call facts instantiated at the concrete
always-transiently-failing replicator. -/
theorem create_and_drop_make_single_attempt_and_raise_witness :
    (create_peerdb_mirror_with_retry defaultRetryConfig peerdbBreakerConfig
        CircuitBreaker.init 0 "orders" transientAttempts).2.1.calls = 1 ∧
    (drop_peerdb_mirror_with_retry defaultRetryConfig peerdbBreakerConfig
        CircuitBreaker.init 0 "orders" transientAttempts).2.1.calls = 1 :=
  ⟨(create_and_drop_make_single_attempt_and_raise.1 transientAttempts).1,
   (create_and_drop_make_single_attempt_and_raise.2.1 transientAttempts).1⟩

/-- C2: the claim states that a create invocation that fails (transient
errors exhausted, or circuit open) increments `mirrors_failed` by one and
returns `err`.  On the code this fails on every realizable failure path:
with a closed breaker a transient failure propagates an exception out of
the wrapper - `mirrors_failed` is untouched and no boolean is returned
at all (the increment at line 499 is dead code) - and with an open
breaker the wrapper returns `False` but performs no
`increment_mirrors_failed` (lines 509-512 only log and `set_error`). -/
theorem create_failure_paths_do_not_increment_failed :
    ((create_peerdb_mirror_with_retry defaultRetryConfig peerdbBreakerConfig
        CircuitBreaker.init 0 "orders" transientAttempts).2.1.failed_inc = 0 ∧
     ∀ b : Bool,
       (create_peerdb_mirror_with_retry defaultRetryConfig peerdbBreakerConfig
         CircuitBreaker.init 0 "orders" transientAttempts).1 ≠ PyResult.ret b) ∧
    create_peerdb_mirror_with_retry defaultRetryConfig peerdbBreakerConfig
        openBreaker 10 "orders" transientAttempts =
      (PyResult.ret false,
       { errorSets := [some "Circuit breaker open - PeerDB API unavailable"] },
       openBreaker) := by
  refine ⟨⟨by decide, ?_⟩, by decide⟩
  intro b
  cases b <;> decide

/-- C2 witness: the no-boolean-return fact instantiated at `False`. -/
theorem create_failure_paths_do_not_increment_failed_witness :
    (create_peerdb_mirror_with_retry defaultRetryConfig peerdbBreakerConfig
        CircuitBreaker.init 0 "orders" transientAttempts).1 ≠
      PyResult.ret false :=
  create_failure_paths_do_not_increment_failed.1.2 false

/-- C3: while the breaker is open and its timeout has not yet elapsed
since the last recorded failure, a create invocation returns `err`
(`False`) and a drop invocation returns `ok` (`True`), both with an
empty trace - in particular zero replicator calls - and the breaker
state unchanged. -/
theorem circuit_open_fast_fail (rcfg : RetryConfig)
    (bcfg : CircuitBreakerConfig) (cb : CircuitBreaker) (now t : Int)
    (table : String) (attempts : Nat → AttemptResult)
    (hs : cb.state = CircuitState.opened)
    (hl : cb.last_failure_time = some t)
    (hto : now - t < bcfg.timeout) :
    create_peerdb_mirror_with_retry rcfg bcfg cb now table attempts =
      (PyResult.ret false,
       { errorSets := [some "Circuit breaker open - PeerDB API unavailable"] },
       cb) ∧
    drop_peerdb_mirror_with_retry rcfg bcfg cb now table attempts =
      (PyResult.ret true,
       { errorSets := [some "Circuit breaker open - PeerDB API unavailable"] },
       cb) := by
  obtain ⟨st, fc, sc, lf⟩ := cb
  have hs' : st = CircuitState.opened := hs
  have hl' : lf = some t := hl
  subst hs' hl'
  have har : _allow_request bcfg ⟨CircuitState.opened, fc, sc, some t⟩ now =
      (false, ⟨CircuitState.opened, fc, sc, some t⟩) := by
    dsimp only [_allow_request]
    rw [if_neg (not_le.mpr hto)]
  constructor
  · simp [create_peerdb_mirror_with_retry, har]
  · simp [drop_peerdb_mirror_with_retry, har]

/-- C3 witness: the open-circuit fast-fail at the default configuration,
30 s after the breaker opened. -/
theorem circuit_open_fast_fail_witness :
    (create_peerdb_mirror_with_retry defaultRetryConfig peerdbBreakerConfig
        openBreaker 30 "orders" transientAttempts =
      (PyResult.ret false,
       { errorSets := [some "Circuit breaker open - PeerDB API unavailable"] },
       openBreaker)) ∧
    (drop_peerdb_mirror_with_retry defaultRetryConfig peerdbBreakerConfig
        openBreaker 30 "orders" transientAttempts =
      (PyResult.ret true,
       { errorSets := [some "Circuit breaker open - PeerDB API unavailable"] },
       openBreaker)) :=
  circuit_open_fast_fail defaultRetryConfig peerdbBreakerConfig openBreaker
    30 0 "orders" transientAttempts rfl rfl (by decide)

/-- C4: a create event whose table is excluded never reaches the
executor (whatever the schema or the duplicate flag), while a drop
event on a sync schema that is not a duplicate is dispatched to the
executor even when its table is excluded. -/
theorem excluded_filter_create_only (sync excluded : List String)
    (schema table : String) (isDup : Bool) (hex : table ∈ excluded) :
    Action.isExecutorCall (routeNotification sync excluded
        "peerdb_create_mirror" schema table isDup) = false ∧
    (schema ∈ sync → isDup = false →
      routeNotification sync excluded "peerdb_drop_mirror" schema table isDup =
        Action.dropCalled) := by
  constructor
  · dsimp only [routeNotification]
    split_ifs <;> simp_all [Action.isExecutorCall]
  · intro hin hdup
    subst hdup
    dsimp only [routeNotification]
    rw [if_neg (by simp [hin]),
      if_neg (by simp :
        ¬("peerdb_drop_mirror" = "peerdb_create_mirror" ∧ table ∈ excluded))]
    simp

/-- C4 witness: with `spatial_ref_sys` excluded, its create event is
not dispatched and its drop event is. -/
theorem excluded_filter_create_only_witness :
    Action.isExecutorCall (routeNotification ["public"] ["spatial_ref_sys"]
        "peerdb_create_mirror" "public" "spatial_ref_sys" false) = false ∧
    routeNotification ["public"] ["spatial_ref_sys"] "peerdb_drop_mirror"
        "public" "spatial_ref_sys" false = Action.dropCalled := by
  have h := excluded_filter_create_only ["public"] ["spatial_ref_sys"]
    "public" "spatial_ref_sys" false (by decide)
  exact ⟨h.1, h.2 (by decide) rfl⟩

/-- C5: a first create attempt exiting non-zero with stderr containing
`already exists` makes the internal create return `ok` (`True`) at once:
one replicator call, no sleep, no `mirrors_created` increment (the
returned trace is exactly one call and nothing else); symmetrically a
first drop attempt whose stderr contains `does not exist` or
`must acquire` returns `ok` at once. -/
theorem idempotent_conflict_returns_ok (rcfg : RetryConfig) (table : String)
    (attempts dropAttempts : Nat → AttemptResult)
    (rc : Int) (s : String) (rcd : Int) (sd : String)
    (hc : attempts 0 = .completed rc s) (hrc : rc ≠ 0)
    (hsub : strContains s "already exists" = true)
    (hd : dropAttempts 0 = .completed rcd sd) (hrcd : rcd ≠ 0)
    (hsubd : strContains sd "does not exist" = true ∨
             strContains sd "must acquire" = true) :
    _create_mirror_internal rcfg table attempts =
      (PyResult.ret true, { calls := 1 }) ∧
    _drop_mirror_internal rcfg table dropAttempts =
      (PyResult.ret true, { calls := 1 }) := by
  constructor
  · have hbody : create_try_body table (attempts 0) =
        (BodyOutcome.ret true, { calls := 1 }) := by
      rw [hc]
      dsimp only [create_try_body]
      rw [if_neg hrc, if_pos hsub]
    unfold _create_mirror_internal
    rw [retry_loop_terminal _ _ _ _ _ _ _ (by rw [hbody]; simp)]
    rw [hbody]
  · have hbody : drop_try_body table (dropAttempts 0) =
        (BodyOutcome.ret true, { calls := 1 }) := by
      rw [hd]
      dsimp only [drop_try_body]
      rw [if_neg hrcd, if_pos (by rcases hsubd with h | h <;> simp [h])]
    unfold _drop_mirror_internal
    rw [retry_loop_terminal _ _ _ _ _ _ _ (by rw [hbody]; simp)]
    rw [hbody]

/-- C5 witness: concrete idempotent-conflict stderr texts. -/
theorem idempotent_conflict_returns_ok_witness :
    _create_mirror_internal defaultRetryConfig "orders"
        (fun _ => .completed 1 "ERROR: mirror orders_mirror already exists") =
      (PyResult.ret true, { calls := 1 }) ∧
    _drop_mirror_internal defaultRetryConfig "orders"
        (fun _ => .completed 1 "ERROR: mirror orders_mirror does not exist") =
      (PyResult.ret true, { calls := 1 }) :=
  idempotent_conflict_returns_ok defaultRetryConfig "orders"
    (fun _ => .completed 1 "ERROR: mirror orders_mirror already exists")
    (fun _ => .completed 1 "ERROR: mirror orders_mirror does not exist")
    1 "ERROR: mirror orders_mirror already exists"
    1 "ERROR: mirror orders_mirror does not exist"
    rfl (by decide) (by decide) rfl (by decide) (Or.inl (by decide))

/-- C6: the breaker state machine satisfies the claimed invariants: in
`closed`, a failure increments `failure_count` by one and a success
resets it to zero while staying `closed`; a failure in `closed` opens
the circuit exactly when the new count reaches `failure_threshold`; no
operation moves `closed` to `half_open`; and `half_open` is entered
only by an admission check from `open` at least `timeout` seconds after
the last recorded failure. -/
theorem breaker_state_machine_invariants (cfg : CircuitBreakerConfig) :
    (∀ (cb : CircuitBreaker) (now : Int), cb.state = CircuitState.closed →
      (breakerStep cfg cb (.onFailure now)).failure_count =
        cb.failure_count + 1) ∧
    (∀ cb : CircuitBreaker, cb.state = CircuitState.closed →
      (breakerStep cfg cb .onSuccess).failure_count = 0 ∧
      (breakerStep cfg cb .onSuccess).state = CircuitState.closed) ∧
    (∀ (cb : CircuitBreaker) (now : Int), cb.state = CircuitState.closed →
      ((breakerStep cfg cb (.onFailure now)).state = CircuitState.opened ↔
        cfg.failure_threshold ≤ cb.failure_count + 1)) ∧
    (∀ (cb : CircuitBreaker) (op : BreakerOp),
      cb.state = CircuitState.closed →
      (breakerStep cfg cb op).state ≠ CircuitState.half_open) ∧
    (∀ (cb : CircuitBreaker) (op : BreakerOp),
      cb.state ≠ CircuitState.half_open →
      (breakerStep cfg cb op).state = CircuitState.half_open →
      ∃ now t, op = BreakerOp.allowReq now ∧
        cb.state = CircuitState.opened ∧
        cb.last_failure_time = some t ∧ cfg.timeout ≤ now - t) := by
  refine ⟨?_, ?_, ?_, ?_, ?_⟩
  · intro cb now h
    obtain ⟨st, fc, sc, lf⟩ := cb
    have h' : st = CircuitState.closed := h
    subst h'
    dsimp only [breakerStep, _on_failure]
    split_ifs <;> rfl
  · intro cb h
    obtain ⟨st, fc, sc, lf⟩ := cb
    have h' : st = CircuitState.closed := h
    subst h'
    exact ⟨rfl, rfl⟩
  · intro cb now h
    obtain ⟨st, fc, sc, lf⟩ := cb
    have h' : st = CircuitState.closed := h
    subst h'
    dsimp only [breakerStep, _on_failure]
    split_ifs with h1 h2 h3 <;> simp_all
  · intro cb op h
    obtain ⟨st, fc, sc, lf⟩ := cb
    have h' : st = CircuitState.closed := h
    subst h'
    cases op with
    | allowReq now => simp [breakerStep, _allow_request]
    | onSuccess => simp [breakerStep, _on_success]
    | onFailure now => exact on_failure_state_ne_half_open cfg _ now
  · intro cb op hne hh
    cases op with
    | allowReq now =>
      obtain ⟨st, fc, sc, lf⟩ := cb
      cases st with
      | closed => exact absurd hh (by simp [breakerStep, _allow_request])
      | opened =>
        cases lf with
        | none => exact absurd hh (by simp [breakerStep, _allow_request])
        | some t =>
          by_cases hto : cfg.timeout ≤ now - t
          · exact ⟨now, t, rfl, rfl, rfl, hto⟩
          · refine absurd hh ?_
            dsimp only [breakerStep, _allow_request]
            rw [if_neg hto]
            simp
      | half_open => exact absurd rfl hne
    | onSuccess =>
      obtain ⟨st, fc, sc, lf⟩ := cb
      cases st with
      | closed => exact absurd hh (by simp [breakerStep, _on_success])
      | opened => exact absurd hh (by simp [breakerStep, _on_success])
      | half_open => exact absurd rfl hne
    | onFailure now =>
      exact absurd hh (on_failure_state_ne_half_open cfg _ now)

/-- C6 witness: the invariants instantiated at the `peerdb_api`
configuration, a fresh breaker and the just-opened breaker admitted
100 s after its last failure. -/
theorem breaker_state_machine_invariants_witness :
    (breakerStep peerdbBreakerConfig CircuitBreaker.init
        (.onFailure 7)).failure_count = 1 ∧
    (breakerStep peerdbBreakerConfig CircuitBreaker.init
        .onSuccess).failure_count = 0 ∧
    ((breakerStep peerdbBreakerConfig CircuitBreaker.init
        (.onFailure 7)).state = CircuitState.opened ↔
      peerdbBreakerConfig.failure_threshold ≤ 1) ∧
    (breakerStep peerdbBreakerConfig CircuitBreaker.init
        (.allowReq 7)).state ≠ CircuitState.half_open ∧
    (∃ now t, BreakerOp.allowReq (100 : Int) = BreakerOp.allowReq now ∧
      openBreaker.state = CircuitState.opened ∧
      openBreaker.last_failure_time = some t ∧
      peerdbBreakerConfig.timeout ≤ now - t) := by
  obtain ⟨h1, h2, h3, h4, h5⟩ :=
    breaker_state_machine_invariants peerdbBreakerConfig
  exact ⟨h1 CircuitBreaker.init 7 rfl, (h2 CircuitBreaker.init rfl).1,
    h3 CircuitBreaker.init 7 rfl, h4 CircuitBreaker.init (.allowReq 7) rfl,
    h5 openBreaker (.allowReq 100) (by decide) (by decide)⟩

/-- C7: the verifier makes at most three count comparisons, and when all
three disagree it returns failure after sleeping 10 s between
comparisons and records the inconsistency through `set_error`. -/
theorem verify_consistency_three_attempts (schema table : String)
    (counts : Nat → Nat × Nat) :
    (verify_mirror_consistency schema table counts).2.comparisons ≤ 3 ∧
    ((∀ k, k < 3 → (counts k).1 ≠ (counts k).2) →
      verify_mirror_consistency schema table counts =
        (false,
          { comparisons := 3, sleeps := [10, 10],
            errorSets :=
              ["Data consistency issue: " ++ schema ++ "." ++ table] })) := by
  rw [verify_cases]
  constructor
  · split_ifs <;> simp
  · intro hmm
    rw [if_neg (hmm 0 (by norm_num)), if_neg (hmm 1 (by norm_num)),
      if_neg (hmm 2 (by norm_num))]

/-- C7 witness: a persistent 100-versus-90 mismatch. -/
theorem verify_consistency_three_attempts_witness :
    (verify_mirror_consistency "public" "orders"
        (fun _ => (100, 90))).2.comparisons ≤ 3 ∧
    verify_mirror_consistency "public" "orders" (fun _ => (100, 90)) =
      (false,
        { comparisons := 3, sleeps := [10, 10],
          errorSets := ["Data consistency issue: public.orders"] }) := by
  obtain ⟨h1, h2⟩ := verify_consistency_three_attempts "public" "orders"
    (fun _ => (100, 90))
  exact ⟨h1, by rw [h2 (by decide)]; rfl⟩

/-- C8: when the shared store is unavailable - no client could be
created, or the existence check raises - the dedup presence check
returns `false`, and consequently the routing of any event with that
flag never skips it as a duplicate. -/
theorem dedup_store_unavailable_fail_open
    (client : Option (Except String Nat))
    (h : client = none ∨ ∃ e, client = some (Except.error e)) :
    is_duplicate_notification client = false ∧
    ∀ (sync excluded : List String) (channel schema table : String),
      routeNotification sync excluded channel schema table
        (is_duplicate_notification client) ≠ Action.skippedDuplicate := by
  have hfalse : is_duplicate_notification client = false := by
    rcases h with h | ⟨e, h⟩ <;> subst h <;> rfl
  refine ⟨hfalse, ?_⟩
  intro sync excluded channel schema table
  rw [hfalse]
  dsimp only [routeNotification]
  split_ifs <;> simp_all

/-- C8 witness: no client at all, and a create event that is then not
treated as a duplicate. -/
theorem dedup_store_unavailable_fail_open_witness :
    is_duplicate_notification none = false ∧
    routeNotification ["public"] [] "peerdb_create_mirror" "public" "orders"
        (is_duplicate_notification none) ≠ Action.skippedDuplicate := by
  obtain ⟨h1, h2⟩ := dedup_store_unavailable_fail_open none (Or.inl rfl)
  exact ⟨h1, h2 ["public"] [] "peerdb_create_mirror" "public" "orders"⟩

/-- C9: a failing Postgres count query reports 0; a ClickHouse count
with no client, or whose two name lookups both fail, reports 0; and
when both sides fail on the first attempt the verifier compares 0 with
0 and reports the table consistent at once. -/
theorem count_query_failure_zero_and_vacuous_match (e1 eb ec : String) :
    _get_postgres_count (Except.error e1) = 0 ∧
    (∀ q1 q2, _get_clickhouse_count false q1 q2 = 0) ∧
    _get_clickhouse_count true (Except.error eb) (Except.error ec) = 0 ∧
    (∀ (schema table : String) (pgq : Nat → Except String (Option Nat))
       (chClientOk : Nat → Bool) (chq1 chq2 : Nat → Except String (Option Nat)),
      pgq 0 = Except.error e1 → chClientOk 0 = false →
      verify_with_queries schema table pgq chClientOk chq1 chq2 =
        (true, { comparisons := 1 })) := by
  refine ⟨rfl, fun q1 q2 => rfl, rfl, ?_⟩
  intro schema table pgq chClientOk chq1 chq2 hp hc
  unfold verify_with_queries
  rw [verify_cases]
  rw [if_pos (by simp [hp, hc, _get_postgres_count, _get_clickhouse_count])]

/-- C9 witness: both count queries fail and the verifier reports a
match on the first comparison. -/
theorem count_query_failure_zero_and_vacuous_match_witness :
    _get_postgres_count (Except.error "connection timed out") = 0 ∧
    _get_clickhouse_count false (Except.ok none) (Except.ok none) = 0 ∧
    _get_clickhouse_count true (Except.error "no such table")
      (Except.error "no such table") = 0 ∧
    verify_with_queries "public" "orders"
      (fun _ => Except.error "connection timed out") (fun _ => false)
      (fun _ => Except.ok none) (fun _ => Except.ok none) =
      (true, { comparisons := 1 }) := by
  obtain ⟨h1, h2, h3, h4⟩ := count_query_failure_zero_and_vacuous_match
    "connection timed out" "no such table" "no such table"
  exact ⟨h1, h2 _ _, h3, h4 "public" "orders" _ _ _ _ rfl rfl⟩

/-- C10: when the lock key already holds this very worker id, the
`SET ... NX` fails, so `acquire_leadership` returns `False` and sets the
local `is_leader` flag to `False`, while the store keeps naming this
worker as leader. -/
theorem acquire_leadership_self_held (worker_id : String)
    (store : Option String) (h : store = some worker_id) :
    acquire_leadership store worker_id =
      { returned := false, is_leader := false, store := some worker_id } := by
  subst h
  rfl

/-- C10 witness: the current leader re-attempting acquisition. -/
theorem acquire_leadership_self_held_witness :
    acquire_leadership (some "worker-1a2b") "worker-1a2b" =
      { returned := false, is_leader := false, store := some "worker-1a2b" } :=
  acquire_leadership_self_held "worker-1a2b" (some "worker-1a2b") rfl

end EchoDB
